import Mathlib

/-!
Verification development for the restaurant reservation service
(`app/models.py`, `app/db.py`, `app/api/{users,tables,promocodes,reservations}.py`,
`app/init_db.py`).

Timestamps are modelled as integers counting seconds (`timedelta(hours=1)` is
3600, one minute is 60).  Monetary values (`Decimal` in the source, stored as
`NUMERIC(15, 2)` by `init_db.py`) are modelled as rationals; the rounding that
Postgres applies when a value is stored into a `NUMERIC(15, 2)` column (round
half away from zero to two decimal places) is modelled by `pgRound2`.
Fallible endpoints return `Except ApiError`; a raised `HTTPException(code,
detail)` is `ApiError.http code detail`, and a Python `AttributeError` (access
of an attribute the pydantic model does not define) is
`ApiError.attributeError`.  A rolled-back transaction is modelled by the
`Except.error` branch: it carries no successor state, so the store is exactly
as it was before the call.
-/

/-- Wall-clock timestamps in seconds (timezone-naive, compared directly). -/
abbrev Time := Int

/-- Rounding to an integer number of cents, half away from zero: the rounding
Postgres performs when a numeric value is stored into a `NUMERIC(15, 2)`
column (`init_db.py` declares every `price` and `balance` column this way). -/
def roundHalfAwayCents (q : ℚ) : ℤ :=
  if 0 ≤ q then ⌊q * 100 + 1 / 2⌋ else -⌊(-q) * 100 + 1 / 2⌋

/-- Value actually stored by a `NUMERIC(15, 2)` column for an assigned
rational value. -/
def pgRound2 (q : ℚ) : ℚ := (roundHalfAwayCents q : ℚ) / 100

/-- Modelled from the spec: rounding "to the currency minor unit using
round-half-up" to two decimal places, as section 4.2 words it.  Used only to
compare the behaviour of the code (`pgRound2`) with the wording of the spec. -/
def roundHalfUp2 (q : ℚ) : ℚ := ((⌊q * 100 + 1 / 2⌋ : ℤ) : ℚ) / 100

/-- A rational is a whole number of cents, i.e. representable by a
`NUMERIC(15, 2)` column without rounding. -/
def isCents (q : ℚ) : Prop := ∃ n : ℤ, q = (n : ℚ) / 100

/-- Row of the `users` table (`init_db.py`, `create_users_table`). -/
structure UserRow where
  id : ℤ
  name : String
  age : ℤ
  email : String
  phone : Option String
  promocode_id : Option ℤ
  balance : ℚ
deriving DecidableEq

/-- Row of the `promocodes` table (`init_db.py`, `create_promocodes_table`). -/
structure PromoRow where
  id : ℤ
  code : String
  created_at : Time
  expires_at : Time
  discount : ℤ
deriving DecidableEq

/-- Row of the `tables` table (`init_db.py`, `create_tables_table`). -/
structure TableRow where
  id : ℤ
  table_number : ℤ
  price : ℚ
  seats : ℤ
deriving DecidableEq

/-- Row of the `reservations` table (`init_db.py`,
`create_reservations_table`). -/
structure ReservationRow where
  id : ℤ
  user_id : ℤ
  table_id : ℤ
  start_time : Time
  end_time : Time
  price : ℚ
deriving DecidableEq

/-- Row of the `reservations_completed` table (`init_db.py`,
`create_reservations_completed_table`). -/
structure CompletedRow where
  id : ℤ
  user_id : ℤ
  table_id : ℤ
  start_time : Time
  end_time : Time
  price : ℚ
  name : String
  age : ℤ
  email : String
  phone : Option String
  promocode_id : Option ℤ
deriving DecidableEq

/-- The relational store the services share.  The `next_reservation_id` and
`next_completed_id` counters model the `SERIAL` id columns. -/
structure DBState where
  promocodes : List PromoRow
  users : List UserRow
  tables : List TableRow
  reservations : List ReservationRow
  reservations_completed : List CompletedRow
  next_reservation_id : ℤ
  next_completed_id : ℤ
deriving DecidableEq

/-- Error channel of the service layer: `http code detail` is a raised
`HTTPException(status_code=code, detail=detail)`; `attributeError a` is the
Python `AttributeError` raised when attribute `a` is read from an object that
does not define it. -/
inductive ApiError where
  | http (status : ℤ) (detail : String)
  | attributeError (attr : String)
deriving DecidableEq

/-- The request model `ReservationAdd` (`app/models.py` lines 35-39).  It
declares exactly the fields `user_id`, `table_number`, `start_time` and
`end_time`. -/
structure ReservationAdd where
  user_id : ℤ
  table_number : ℤ
  start_time : Time
  end_time : Time
deriving DecidableEq

/-- Python attribute lookup on a `ReservationAdd` instance: the four declared
fields resolve to their values, and every other attribute name raises
`AttributeError` (modelled by `none`). -/
def ReservationAdd.getattr? (r : ReservationAdd) (attr : String) : Option ℤ :=
  if attr = "user_id" then some r.user_id
  else if attr = "table_number" then some r.table_number
  else if attr = "start_time" then some r.start_time
  else if attr = "end_time" then some r.end_time
  else none

/-- `TablesService.get_table_info` (`app/api/tables.py` lines 100-107):
`SELECT price, seats FROM tables WHERE id = %s`; 404 "Invalid tables_id" when
no row matches. -/
def get_table_info (st : DBState) (table_id : ℤ) : Except ApiError (ℚ × ℤ) :=
  match st.tables.find? (fun t => t.id == table_id) with
  | none => .error (.http 404 "Invalid tables_id")
  | some t => .ok (t.price, t.seats)

/-- `UsersService.get_balance` (`app/api/users.py` lines 150-161):
`SELECT users.balance, promocodes.discount FROM users LEFT JOIN promocodes ON
users.promocode_id = promocodes.id WHERE users.id = %s`; 404 "Invalid user_id"
when the user is absent, and `if not discount: discount = 0` replaces a NULL
discount (no attached promo, or dangling reference) by 0.  Note the function
takes no clock and reads no expiry column. -/
def get_balance (st : DBState) (user_id : ℤ) : Except ApiError (ℚ × ℤ) :=
  match st.users.find? (fun u => u.id == user_id) with
  | none => .error (.http 404 "Invalid user_id")
  | some u =>
    let discount : ℤ :=
      match u.promocode_id with
      | none => 0
      | some pid =>
        match st.promocodes.find? (fun p => p.id == pid) with
        | none => 0
        | some p => p.discount
    .ok (u.balance, discount)

/-- `PromocodesService.get_promocode` (`app/api/promocodes.py` lines 135-157):
`SELECT id, expires_at FROM promocodes WHERE code = %s`; 404 when absent. -/
def get_promocode (st : DBState) (code : String) : Except ApiError (ℤ × Time) :=
  match st.promocodes.find? (fun p => p.code == code) with
  | none => .error (.http 404 "Promocode not found")
  | some p => .ok (p.id, p.expires_at)

/-- `PromocodesService.apply_promo` (`app/api/promocodes.py` lines 98-133):
looks the code up, rejects it when `datetime.now() >= expires_at`, then
attaches the promo id to the user found by email. -/
def apply_promo (now : Time) (st : DBState) (email : String) (code : String) :
    Except ApiError (DBState × ℤ) :=
  match get_promocode st code with
  | .error e => .error e
  | .ok (promocode_id, expires_at) =>
    if now ≥ expires_at then .error (.http 400 "Promocode has expired")
    else
      match st.users.find? (fun u => u.email == email) with
      | none => .error (.http 404 "User with this email was not found")
      | some u =>
        .ok ({ st with
               users := st.users.map fun x =>
                 if x.email == email then { x with promocode_id := some promocode_id } else x },
             u.id)

/-- `ReservationsService.check_reservation` (`app/api/reservations.py` lines
67-92): `SELECT * FROM reservations WHERE table_id = %s AND (start_time < %s
AND end_time > %s)` with parameters `(table_id, end_time, start_time)`; raises
400 when any row matches. -/
def check_reservation (st : DBState) (table_id : ℤ) (start_time end_time : Time) :
    Except ApiError Unit :=
  if st.reservations.any (fun x =>
      x.table_id == table_id && decide (x.start_time < end_time) &&
      decide (start_time < x.end_time)) then
    .error (.http 400 "Table is already reserved for the specified time.")
  else .ok ()

/-- Discount amount from `app/api/reservations.py` line 121:
`price * (Decimal(discount) / Decimal(100))` (exact in 28-digit context for
`NUMERIC(15, 2)` inputs, hence exact rational arithmetic). -/
def discount_amount (price : ℚ) (discount : ℤ) : ℚ := price * ((discount : ℚ) / 100)

/-- Final price from `app/api/reservations.py` line 122:
`price - discount_amount`. -/
def final_price (price : ℚ) (discount : ℤ) : ℚ := price - discount_amount price discount

/-- The price actually persisted for a reservation: `final_price` stored into
the `NUMERIC(15, 2)` column `reservations.price`. -/
def charged_price (price : ℚ) (discount : ℤ) : ℚ := pgRound2 (final_price price discount)

/-- `ReservationsService.create_reservation` (`app/api/reservations.py` lines
94-160).  The three time validations come first; then the source evaluates
`reservation.table_id` (as the argument of `get_table_info`), which is an
attribute `ReservationAdd` does not define, so Python raises
`AttributeError` at that point.  The remainder (table lookup, seats check,
pricing, availability check, and the insert-plus-debit transaction) is kept
faithful to the source text. -/
def create_reservation (now : Time) (st : DBState) (seats : ℤ) (r : ReservationAdd) :
    Except ApiError (DBState × ℤ) :=
  if r.start_time ≥ r.end_time then
    .error (.http 400 "The start time is greater than the end time.")
  else if r.start_time < now then
    .error (.http 400 "The reservation start date must not start earlier than the current time.")
  else if r.start_time + 3600 ≥ r.end_time then
    .error (.http 400 "Minimum reservation time 1 hour.")
  else
    match r.getattr? "table_id" with
    | none => .error (.attributeError "table_id")
    | some table_id =>
      match get_table_info st table_id with
      | .error e => .error e
      | .ok (price, available_seats) =>
        if seats > available_seats then
          .error (.http 400 ("This table only seats " ++ toString available_seats ++ "."))
        else
          match get_balance st r.user_id with
          | .error e => .error e
          | .ok (balance, discount) =>
            if final_price price discount > balance then
              .error (.http 400 "Insufficient money for reservation.")
            else
              match check_reservation st table_id r.start_time r.end_time with
              | .error e => .error e
              | .ok _ =>
                let rid := st.next_reservation_id
                .ok ({ st with
                       reservations := st.reservations ++
                         [⟨rid, r.user_id, table_id, r.start_time, r.end_time,
                           charged_price price discount⟩],
                       users := st.users.map fun u =>
                         if u.id == r.user_id then
                           { u with balance := pgRound2 (u.balance - final_price price discount) }
                         else u,
                       next_reservation_id := rid + 1 }, rid)

/-- `ReservationsService.apply_reservation` (`app/api/reservations.py` lines
162-254): joined select (LEFT JOIN users), 404 when the reservation is
absent; then, in one transaction, insert the denormalized row into
`reservations_completed` and delete the active row.  When the owning user is
gone the LEFT JOIN still yields a row, but the archive insert violates the
NOT NULL constraint on `name`, the transaction is rolled back and the
exception is re-raised as HTTP 400 — no state change. -/
def apply_reservation (st : DBState) (reservation_id : ℤ) :
    Except ApiError (DBState × ℤ × ℤ) :=
  match st.reservations.find? (fun x => x.id == reservation_id) with
  | none => .error (.http 404 "Reservation not found")
  | some r =>
    match st.users.find? (fun u => u.id == r.user_id) with
    | none => .error (.http 400 "null value in column name violates not-null constraint")
    | some u =>
      let cid := st.next_completed_id
      .ok ({ st with
             reservations_completed := st.reservations_completed ++
               [⟨cid, r.user_id, r.table_id, r.start_time, r.end_time, r.price,
                 u.name, u.age, u.email, u.phone, u.promocode_id⟩],
             reservations := st.reservations.filter fun x => !(x.id == reservation_id),
             next_completed_id := cid + 1 }, cid, reservation_id)

/-- `ReservationsService.cancel_reservation` (`app/api/reservations.py` lines
256-315): `SELECT user_id, price FROM reservations WHERE id = %s`, 404 when
absent; then, in one transaction, `UPDATE users SET balance = balance + price
WHERE id = %s RETURNING id` and `DELETE FROM reservations WHERE id = %s`.
When the user row is gone, `fetchone()` returns `None`, the subscript raises
`TypeError`, the transaction is rolled back and the error is re-raised as
HTTP 400 — no state change. -/
def cancel_reservation (st : DBState) (reservation_id : ℤ) :
    Except ApiError (DBState × ℤ × ℤ) :=
  match st.reservations.find? (fun x => x.id == reservation_id) with
  | none => .error (.http 404 "Reservation not found")
  | some r =>
    match st.users.find? (fun u => u.id == r.user_id) with
    | none => .error (.http 400 "TypeError: NoneType object is not subscriptable")
    | some _ =>
      .ok ({ st with
             users := st.users.map fun x =>
               if x.id == r.user_id then { x with balance := pgRound2 (x.balance + r.price) } else x,
             reservations := st.reservations.filter fun x => !(x.id == reservation_id) },
           reservation_id, r.user_id)

/-- `ReservationsService.get_reservations` (`app/api/reservations.py` lines
17-40): `SELECT ... FROM reservations LIMIT %s OFFSET %s`; 404 when the page
is empty. -/
def get_reservations (st : DBState) (limit skip : ℕ) :
    Except ApiError (List ReservationRow) :=
  let rows := (st.reservations.drop skip).take limit
  if rows = [] then .error (.http 404 "Reservations not found")
  else .ok rows

/-- `CompletedReservationsService.get_completed_reservations`
(`app/api/reservations.py` lines 319-367): `SELECT ... FROM
reservations_completed LIMIT %s OFFSET %s`; 404 when the page is empty. -/
def get_completed_reservations (st : DBState) (limit skip : ℕ) :
    Except ApiError (List CompletedRow) :=
  let rows := (st.reservations_completed.drop skip).take limit
  if rows = [] then .error (.http 404 "Reservations completed not found")
  else .ok rows

/-- SQL statements issued by the body of `create_reservation`, for the
transaction-boundary analysis. -/
inductive SqlOp where
  | select_table_info
  | select_user_balance
  | select_overlap
  | insert_reservation
  | update_user_balance
deriving DecidableEq

/-- A statement execution tagged with the transaction it ran in. -/
structure TxnEvent where
  txn : ℕ
  op : SqlOp
deriving DecidableEq

/-- `DatabaseManager.execute_query` (`app/db.py` lines 25-36) acquires a
pooled connection of its own, executes the statement and commits before
returning, so each call is a complete transaction. -/
def execute_query_trace (txn : ℕ) (op : SqlOp) : List TxnEvent := [⟨txn, op⟩]

/-- Transaction structure of the statements in the body of
`create_reservation` as written (`app/api/reservations.py` lines 111-152):
`get_table_info`, `get_balance` and `check_reservation` each go through
`execute_query` and therefore each commit a transaction of their own; only
the reservation insert and the balance debit share the explicitly managed
connection opened at line 132 and committed at line 152. -/
def create_reservation_trace : List TxnEvent :=
  execute_query_trace 0 .select_table_info ++
  execute_query_trace 1 .select_user_balance ++
  execute_query_trace 2 .select_overlap ++
  [⟨3, .insert_reservation⟩, ⟨3, .update_user_balance⟩]

/-- The empty store (fresh database). -/
def emptyDB : DBState := ⟨[], [], [], [], [], 1, 1⟩

/-! ## Helper lemmas -/

lemma floor_intCast_add_half (n : ℤ) : ⌊(n : ℚ) + 1 / 2⌋ = n := by
  rw [Int.floor_eq_iff]
  constructor
  · linarith
  · have h1 : ((n + 1 : ℤ) : ℚ) = (n : ℚ) + 1 := by push_cast; ring
    linarith [h1.le]

lemma pgRound2_cents (n : ℤ) : pgRound2 ((n : ℚ) / 100) = (n : ℚ) / 100 := by
  have h : ((n : ℚ) / 100) * 100 = (n : ℚ) := by field_simp
  unfold pgRound2 roundHalfAwayCents
  split
  · rw [h, floor_intCast_add_half]
  · have h2 : (-((n : ℚ) / 100)) * 100 = ((-n : ℤ) : ℚ) := by push_cast; linarith
    rw [h2, floor_intCast_add_half]
    simp

lemma pgRound2_eq_self (q : ℚ) (h : isCents q) : pgRound2 q = q := by
  obtain ⟨n, rfl⟩ := h
  exact pgRound2_cents n

lemma isCents_add {a b : ℚ} (ha : isCents a) (hb : isCents b) : isCents (a + b) := by
  obtain ⟨m, rfl⟩ := ha
  obtain ⟨n, rfl⟩ := hb
  exact ⟨m + n, by push_cast; ring⟩

lemma isCents_sub {a b : ℚ} (ha : isCents a) (hb : isCents b) : isCents (a - b) := by
  obtain ⟨m, rfl⟩ := ha
  obtain ⟨n, rfl⟩ := hb
  exact ⟨m - n, by push_cast; ring⟩

lemma pgRound2_nonneg (q : ℚ) (h : 0 ≤ q) : 0 ≤ pgRound2 q := by
  unfold pgRound2 roundHalfAwayCents
  rw [if_pos h]
  have h1 : (0 : ℤ) ≤ ⌊q * 100 + 1 / 2⌋ := by
    rw [Int.le_floor]
    push_cast
    nlinarith
  positivity

lemma getattr_table_id (r : ReservationAdd) : r.getattr? "table_id" = none := by
  unfold ReservationAdd.getattr?
  rw [if_neg (by decide), if_neg (by decide), if_neg (by decide), if_neg (by decide)]

lemma find?_filter_not {α : Type} (p : α → Bool) (l : List α) :
    (l.filter fun x => !(p x)).find? p = none := by
  rw [List.find?_eq_none]
  intro x hx
  have h2 := (List.mem_filter.mp hx).2
  simp only [Bool.not_eq_true'] at h2
  simp [h2]

lemma find?_map_if {α : Type} (p : α → Bool) (f : α → α) (l : List α) (a : α)
    (h : l.find? p = some a) (hf : ∀ x, p (f x) = p x) :
    (l.map fun x => if p x then f x else x).find? p = some (f a) := by
  induction l with
  | nil => simp at h
  | cons b t ih =>
    by_cases hb : p b = true
    · rw [List.find?_cons_of_pos _ hb] at h
      injection h with h
      subst h
      simp only [List.map_cons, if_pos hb]
      rw [List.find?_cons_of_pos _ (by rw [hf]; exact hb)]
    · rw [List.find?_cons_of_neg _ (by simp [hb])] at h
      simp only [List.map_cons, if_neg hb]
      rw [List.find?_cons_of_neg _ (by simp [hb])]
      exact ih h

/-! ## Claim C1 -/

/-- Claim C1: for every booking request that passes the three time validations
(start before end, start not in the past, duration over one hour),
`create_reservation` reads the attribute `table_id` from the request model,
which `ReservationAdd` does not define, so the call stops with an
`AttributeError`; the table lookup, the availability check, the insert and
the debit are unreachable, and `create_reservation` never returns a
reservation id for any input whatsoever. -/
theorem create_reservation_unreachable
    (now : Time) (st : DBState) (seats : ℤ) (r : ReservationAdd)
    (h1 : r.start_time < r.end_time)
    (h2 : now ≤ r.start_time)
    (h3 : r.start_time + 3600 < r.end_time) :
    create_reservation now st seats r = .error (.attributeError "table_id") ∧
    ∀ (now2 : Time) (st2 : DBState) (seats2 : ℤ) (r2 : ReservationAdd)
      (res : DBState × ℤ), create_reservation now2 st2 seats2 r2 ≠ .ok res := by
  constructor
  · unfold create_reservation
    rw [if_neg (not_le.mpr h1), if_neg (not_lt.mpr h2), if_neg (not_le.mpr h3),
      getattr_table_id]
  · intro now2 st2 seats2 r2 res heq
    unfold create_reservation at heq
    rw [getattr_table_id] at heq
    split at heq
    · exact Except.noConfusion heq
    · split at heq
      · exact Except.noConfusion heq
      · split at heq
        · exact Except.noConfusion heq
        · exact Except.noConfusion heq

/-- Witness for claim C1: a concrete request (window from 0 to 7200 seconds,
clock at 0) passes all three time validations and still fails with the
`AttributeError`. -/
theorem create_reservation_unreachable_witness :
    create_reservation 0 emptyDB 1 ⟨1, 1, 0, 7200⟩ =
      .error (.attributeError "table_id") :=
  (create_reservation_unreachable 0 emptyDB 1 ⟨1, 1, 0, 7200⟩ (by norm_num)
    (by norm_num) (by norm_num)).1

/-! ## Claim C2 -/

/-- Store with one table (id 1), one funded user (id 1) and one active
reservation on table 1 over the half-open window from 3600 to 10800. -/
def dbC2 : DBState :=
  ⟨[], [⟨1, "alice", 30, "alice@example.com", none, none, 10000⟩],
   [⟨1, 1, 5000, 4⟩],
   [⟨1, 1, 1, 3600, 10800, 5000⟩], [], 2, 1⟩

/-- Claim C2 evidence (code bug): with table 1 already reserved over
[3600, 10800), a second create for the overlapping window [7200, 14400) does
not fail with the Conflict error, and a second create for the back-to-back
window [10800, 18000) does not succeed either — both stop with the
`AttributeError` on `table_id` before the availability check can run. -/
theorem create_overlap_hits_attribute_error :
    create_reservation 0 dbC2 2 ⟨1, 1, 7200, 14400⟩ = .error (.attributeError "table_id") ∧
    create_reservation 0 dbC2 2 ⟨1, 1, 10800, 18000⟩ = .error (.attributeError "table_id") ∧
    (ApiError.attributeError "table_id" ≠
      ApiError.http 400 "Table is already reserved for the specified time.") :=
  ⟨rfl, rfl, by decide⟩

/-! ## Claim C3 -/

/-- Store with one expensive table (price 5000) and a user whose balance is
only 10, so the final price exceeds the balance. -/
def dbC3 : DBState :=
  ⟨[], [⟨1, "bob", 40, "bob@example.com", none, none, 10⟩],
   [⟨1, 1, 5000, 4⟩], [], [], 1, 1⟩

/-- Claim C3 evidence (code bug): for a request whose final price (5000, no
promo) exceeds the balance (10), `create_reservation` does not fail with the
InsufficientFunds error: it stops earlier with the `AttributeError` on
`table_id`, because the balance check at lines 119-126 is unreachable. -/
theorem create_insufficient_funds_unreachable :
    create_reservation 0 dbC3 2 ⟨1, 1, 3600, 10800⟩ = .error (.attributeError "table_id") ∧
    final_price 5000 0 > (10 : ℚ) ∧
    (ApiError.attributeError "table_id" ≠
      ApiError.http 400 "Insufficient money for reservation.") :=
  ⟨rfl, by norm_num [final_price, discount_amount], by decide⟩

/-! ## Claim C8 -/

/-- Claim C8: a duration of exactly one hour (end = start + 3600) is rejected
with the validation error "Minimum reservation time 1 hour.", while a
duration of one hour plus one minute (end = start + 3660) passes the duration
validation — the call proceeds beyond the three time validations, stopping
only at the first post-validation step (the `table_id` attribute access). -/
theorem min_duration_boundary
    (now : Time) (st : DBState) (seats : ℤ) (r : ReservationAdd)
    (h : now ≤ r.start_time) :
    (r.end_time = r.start_time + 3600 →
      create_reservation now st seats r =
        .error (.http 400 "Minimum reservation time 1 hour.")) ∧
    (r.end_time = r.start_time + 3660 →
      create_reservation now st seats r = .error (.attributeError "table_id")) := by
  constructor
  · intro hd
    unfold create_reservation
    rw [hd, if_neg (show ¬(r.start_time ≥ r.start_time + 3600) by simp),
      if_neg (not_lt.mpr h),
      if_pos (show r.start_time + 3600 ≥ r.start_time + 3600 from le_refl _)]
  · intro hd
    unfold create_reservation
    rw [hd, if_neg (show ¬(r.start_time ≥ r.start_time + 3660) by simp),
      if_neg (not_lt.mpr h),
      if_neg (show ¬(r.start_time + 3600 ≥ r.start_time + 3660) by linarith),
      getattr_table_id]

/-- Witness for claim C8 at concrete requests: start 0 with end 3600 is
rejected as too short, start 0 with end 3660 passes the duration check. -/
theorem min_duration_boundary_witness :
    create_reservation 0 emptyDB 1 ⟨1, 1, 0, 3600⟩ =
      .error (.http 400 "Minimum reservation time 1 hour.") ∧
    create_reservation 0 emptyDB 1 ⟨1, 1, 0, 3660⟩ =
      .error (.attributeError "table_id") := by
  constructor
  · exact (min_duration_boundary 0 emptyDB 1 ⟨1, 1, 0, 3600⟩ (by norm_num)).1 rfl
  · exact (min_duration_boundary 0 emptyDB 1 ⟨1, 1, 0, 3660⟩ (by norm_num)).2 rfl

/-! ## Claim C6 -/

/-- Claim C6: the charged final price equals
`table_price * (1 - discount_percent / 100)`, computed exactly in decimal
arithmetic (the product of a two-decimal price and a two-decimal factor needs
no truncation) and rounded to two decimal places half-up when stored into the
`NUMERIC(15, 2)` price column; it is never negative for a non-negative table
price and a discount between 0 and 99; and table price 5000 with a 20
percent discount yields exactly 4000.00. -/
theorem charged_price_spec (p : ℚ) (d : ℤ) (hp : 0 ≤ p) (_h0 : 0 ≤ d) (h99 : d ≤ 99) :
    final_price p d = p * (1 - (d : ℚ) / 100) ∧
    charged_price p d = roundHalfUp2 (p * (1 - (d : ℚ) / 100)) ∧
    0 ≤ charged_price p d ∧
    charged_price 5000 20 = 4000 := by
  have hqd : (d : ℚ) ≤ 99 := by exact_mod_cast h99
  have hfp : final_price p d = p * (1 - (d : ℚ) / 100) := by
    unfold final_price discount_amount
    ring
  have hnn : 0 ≤ p * (1 - (d : ℚ) / 100) := by
    apply mul_nonneg hp
    linarith
  refine ⟨hfp, ?_, ?_, ?_⟩
  · unfold charged_price
    rw [hfp]
    unfold pgRound2 roundHalfAwayCents roundHalfUp2
    rw [if_pos hnn]
  · unfold charged_price
    rw [hfp]
    exact pgRound2_nonneg _ hnn
  · have h5 : final_price 5000 20 = 4000 := by
      unfold final_price discount_amount
      norm_num
    unfold charged_price
    rw [h5, show (4000 : ℚ) = ((400000 : ℤ) : ℚ) / 100 by norm_num, pgRound2_cents]

/-- Witness for claim C6 at the concrete scenario of the spec: table price
5000, discount 20 percent. -/
theorem charged_price_spec_witness :
    charged_price 5000 20 = 4000 ∧ 0 ≤ charged_price 5000 20 := by
  have h := charged_price_spec 5000 20 (by norm_num) (by norm_num) (by norm_num)
  exact ⟨h.2.2.2, h.2.2.1⟩

/-! ## Claim C4 -/

/-- Claim C4: cancelling an active reservation credits the owning user with
exactly the charged price of the reservation (both are `NUMERIC(15, 2)`
values, so the credit is exact) and removes the active row; a second cancel
with the same id fails with the 404 NotFound error; and the ledger round-trip
law holds: a debit followed by a credit of the same two-decimal amount
restores the original balance exactly, with no precision drift. -/
theorem cancel_reservation_refunds
    (st : DBState) (rid : ℤ) (r : ReservationRow) (u : UserRow)
    (hr : st.reservations.find? (fun x => x.id == rid) = some r)
    (hu : st.users.find? (fun x => x.id == r.user_id) = some u)
    (hb : isCents u.balance) (hp : isCents r.price) :
    (∃ st2, cancel_reservation st rid = .ok (st2, rid, r.user_id) ∧
      st2.users.find? (fun x => x.id == r.user_id) =
        some { u with balance := u.balance + r.price } ∧
      st2.reservations.find? (fun x => x.id == rid) = none ∧
      cancel_reservation st2 rid = .error (.http 404 "Reservation not found")) ∧
    (∀ b a : ℚ, isCents b → isCents a → pgRound2 (pgRound2 (b - a) + a) = b) := by
  constructor
  · refine ⟨{ st with
        users := st.users.map fun x =>
          if x.id == r.user_id then { x with balance := pgRound2 (x.balance + r.price) } else x,
        reservations := st.reservations.filter fun x => !(x.id == rid) }, ?_, ?_, ?_, ?_⟩
    · simp only [cancel_reservation, hr, hu]
    · show (st.users.map fun x =>
          if x.id == r.user_id then { x with balance := pgRound2 (x.balance + r.price) } else x).find?
            (fun x => x.id == r.user_id) = some { u with balance := u.balance + r.price }
      rw [find?_map_if (fun x => x.id == r.user_id)
        (fun x => { x with balance := pgRound2 (x.balance + r.price) }) st.users u hu
        (fun x => rfl)]
      rw [pgRound2_eq_self _ (isCents_add hb hp)]
    · show (st.reservations.filter fun x => !(x.id == rid)).find?
          (fun x => x.id == rid) = none
      exact find?_filter_not _ _
    · have hn : ({ st with
          users := st.users.map fun x =>
            if x.id == r.user_id then { x with balance := pgRound2 (x.balance + r.price) } else x,
          reservations := st.reservations.filter fun x => !(x.id == rid) } :
            DBState).reservations.find? (fun x => x.id == rid) = none :=
        find?_filter_not _ _
      simp only [cancel_reservation, hn]
  · intro b a hbc hac
    rw [pgRound2_eq_self _ (isCents_sub hbc hac),
      pgRound2_eq_self _ (isCents_add (isCents_sub hbc hac) hac)]
    ring

/-- Store for the claim C4 witness: one user (id 1, balance 100) and one
active reservation (id 10, charged price 4000) owned by that user. -/
def dbC4 : DBState :=
  ⟨[], [⟨1, "carol", 25, "carol@example.com", none, none, 100⟩], [⟨1, 1, 4000, 4⟩],
   [⟨10, 1, 1, 3600, 10800, 4000⟩], [], 11, 1⟩

/-- Witness for claim C4: cancelling reservation 10 refunds user 1 exactly
4000 on top of the original balance 100, and a second cancel is a 404. -/
theorem cancel_reservation_refunds_witness :
    ∃ st2, cancel_reservation dbC4 10 = .ok (st2, 10, 1) ∧
      st2.users.find? (fun x => x.id == 1) =
        some ⟨1, "carol", 25, "carol@example.com", none, none, 100 + 4000⟩ ∧
      cancel_reservation st2 10 = .error (.http 404 "Reservation not found") := by
  have h := cancel_reservation_refunds dbC4 10 ⟨10, 1, 1, 3600, 10800, 4000⟩
    ⟨1, "carol", 25, "carol@example.com", none, none, 100⟩ rfl rfl
    ⟨10000, by norm_num⟩ ⟨400000, by norm_num⟩
  obtain ⟨⟨st2, h1, h2, h3, h4⟩, h5⟩ := h
  exact ⟨st2, h1, h2, h4⟩

/-! ## Claim C5 -/

/-- Claim C5: completing an active reservation removes it from the active
store and appends exactly one archive row carrying the booking facts together
with the owning user identity fields (name, age, email, phone, promo
reference) as they are at call time; after the transition the reservation is
gone from the active store and present once in the archive; a second call
with the same id fails with the 404 NotFound error.  The two writes happen in
one transaction: the model returns either the fully updated state or an error
carrying no state change. -/
theorem apply_reservation_archives
    (st : DBState) (rid : ℤ) (r : ReservationRow) (u : UserRow)
    (hr : st.reservations.find? (fun x => x.id == rid) = some r)
    (hu : st.users.find? (fun x => x.id == r.user_id) = some u) :
    ∃ st2, apply_reservation st rid = .ok (st2, st.next_completed_id, rid) ∧
      st2.reservations_completed = st.reservations_completed ++
        [⟨st.next_completed_id, r.user_id, r.table_id, r.start_time, r.end_time, r.price,
          u.name, u.age, u.email, u.phone, u.promocode_id⟩] ∧
      st2.reservations = st.reservations.filter (fun x => !(x.id == rid)) ∧
      st2.reservations.find? (fun x => x.id == rid) = none ∧
      st2.reservations_completed.length = st.reservations_completed.length + 1 ∧
      apply_reservation st2 rid = .error (.http 404 "Reservation not found") := by
  refine ⟨{ st with
      reservations_completed := st.reservations_completed ++
        [⟨st.next_completed_id, r.user_id, r.table_id, r.start_time, r.end_time, r.price,
          u.name, u.age, u.email, u.phone, u.promocode_id⟩],
      reservations := st.reservations.filter fun x => !(x.id == rid),
      next_completed_id := st.next_completed_id + 1 }, ?_, rfl, rfl, ?_, ?_, ?_⟩
  · simp only [apply_reservation, hr, hu]
  · show (st.reservations.filter fun x => !(x.id == rid)).find?
        (fun x => x.id == rid) = none
    exact find?_filter_not _ _
  · show (st.reservations_completed ++ [_]).length = st.reservations_completed.length + 1
    simp
  · have hn : ({ st with
        reservations_completed := st.reservations_completed ++
          [⟨st.next_completed_id, r.user_id, r.table_id, r.start_time, r.end_time, r.price,
            u.name, u.age, u.email, u.phone, u.promocode_id⟩],
        reservations := st.reservations.filter fun x => !(x.id == rid),
        next_completed_id := st.next_completed_id + 1 } :
          DBState).reservations.find? (fun x => x.id == rid) = none :=
      find?_filter_not _ _
    simp only [apply_reservation, hn]

/-- Store for the claim C5 witness: one user (id 1) owning the active
reservation 10. -/
def dbC5 : DBState :=
  ⟨[], [⟨1, "erin", 28, "erin@example.com", some "555-0100", none, 500⟩],
   [⟨1, 1, 4000, 4⟩], [⟨10, 1, 1, 3600, 10800, 4000⟩], [], 11, 7⟩

/-- Witness for claim C5: completing reservation 10 archives it with the
identity fields of user 1 and empties the active store; a second call is
a 404. -/
theorem apply_reservation_archives_witness :
    ∃ st2, apply_reservation dbC5 10 = .ok (st2, 7, 10) ∧
      st2.reservations_completed =
        [⟨7, 1, 1, 3600, 10800, 4000, "erin", 28, "erin@example.com",
          some "555-0100", none⟩] ∧
      apply_reservation st2 10 = .error (.http 404 "Reservation not found") := by
  have h := apply_reservation_archives dbC5 10 ⟨10, 1, 1, 3600, 10800, 4000⟩
    ⟨1, "erin", 28, "erin@example.com", some "555-0100", none, 500⟩ rfl rfl
  obtain ⟨st2, h1, h2, h3, h4, h5, h6⟩ := h
  exact ⟨st2, h1, h2, h6⟩

/-! ## Claim C7 -/

/-- Store for claim C7: promo 1 expires at time 100 and is attached to user
1; the wall clock of the scenario stands at 200, past the expiry. -/
def dbC7 : DBState :=
  ⟨[⟨1, "SAVE20", 0, 100, 20⟩],
   [⟨1, "dave", 35, "dave@example.com", none, some 1, 1000⟩], [], [], [], 1, 1⟩

/-- Claim C7 counterexample: pricing reads the discount through
`get_balance`, which takes no clock and reads no expiry column, so with the
wall clock at 200 — past the attached promo expiry 100 — the booking still
receives the 20 percent discount, and no Expired condition is reported.
This refutes the claim that expiry is evaluated against wall-clock time at
the moment the discount is used. -/
theorem get_balance_expired_promo_counterexample :
    get_balance dbC7 1 = .ok (1000, 20) ∧
    (⟨1, "SAVE20", 0, 100, 20⟩ : PromoRow) ∈ dbC7.promocodes ∧
    (100 : Time) < 200 ∧ (20 : ℤ) ≠ 0 :=
  ⟨rfl, List.mem_singleton.mpr rfl, by norm_num, by norm_num⟩

/-- Claim C7 amended: promo expiry is evaluated only when the promo is
attached (`apply_promo` rejects an expired code with 400 "Promocode has
expired"); at pricing time `get_balance` returns the attached promo discount
unconditionally — its result does not depend on any clock or on the promo
expiry timestamp. -/
theorem get_balance_ignores_expiry
    (st : DBState) (uid : ℤ) (u : UserRow) (pid : ℤ) (p : PromoRow)
    (hu : st.users.find? (fun x => x.id == uid) = some u)
    (hpid : u.promocode_id = some pid)
    (hp : st.promocodes.find? (fun x => x.id == pid) = some p) :
    get_balance st uid = .ok (u.balance, p.discount) ∧
    (∀ (now : Time) (email code : String) (pid2 : ℤ) (expires_at : Time),
      get_promocode st code = .ok (pid2, expires_at) → expires_at ≤ now →
      apply_promo now st email code = .error (.http 400 "Promocode has expired")) := by
  constructor
  · simp only [get_balance, hu, hpid, hp]
  · intro now email code pid2 expires_at hg hle
    simp only [apply_promo, hg]
    rw [if_pos hle]

/-- Witness for the amended claim C7: in the concrete store the discount of
the attached (and already expired) promo is returned unchanged. -/
theorem get_balance_ignores_expiry_witness :
    get_balance dbC7 1 = .ok (1000, 20) :=
  (get_balance_ignores_expiry dbC7 1 ⟨1, "dave", 35, "dave@example.com", none, some 1, 1000⟩
    1 ⟨1, "SAVE20", 0, 100, 20⟩ rfl rfl rfl).1

/-! ## Claim C9 -/

/-- Claim C9 counterexample: in the statement trace of `create_reservation`
as written, the availability SELECT (`check_reservation`, which goes through
the auto-committing `execute_query`) and the reservation INSERT never occur
in the same transaction — refuting the claim that the availability check
executes inside the same atomic transaction as the insert and the debit. -/
theorem availability_check_txn_counterexample :
    ¬ ∃ e1 ∈ create_reservation_trace, ∃ e2 ∈ create_reservation_trace,
      e1.op = SqlOp.select_overlap ∧ e2.op = SqlOp.insert_reservation ∧
      e1.txn = e2.txn := by
  decide

/-- Claim C9 amended: the availability check of `create_reservation` runs in
its own separately committed transaction (connection acquired and committed
inside `execute_query`) before the write transaction begins; only the
reservation insert and the balance debit share a transaction.  The
check-then-insert sequence is therefore not atomic and the code does not, by
itself, prevent two concurrent creates for overlapping windows from both
passing the check. -/
theorem availability_check_separate_txn :
    (∀ e1 ∈ create_reservation_trace, ∀ e2 ∈ create_reservation_trace,
      e1.op = SqlOp.select_overlap → e2.op = SqlOp.insert_reservation →
      e1.txn ≠ e2.txn) ∧
    (∃ e1 ∈ create_reservation_trace, ∃ e2 ∈ create_reservation_trace,
      e1.op = SqlOp.insert_reservation ∧ e2.op = SqlOp.update_user_balance ∧
      e1.txn = e2.txn) := by
  decide

/-! ## Claim C10 -/

/-- Claim C10: the paginated read accessors never return an empty list: when
the requested page of rows is empty, `get_reservations` and
`get_completed_reservations` fail with a 404 NotFound error, and a returned
collection is never empty for any store and page. -/
theorem paginated_reads_not_found (st : DBState) (limit skip : ℕ)
    (h1 : (st.reservations.drop skip).take limit = [])
    (h2 : (st.reservations_completed.drop skip).take limit = []) :
    get_reservations st limit skip = .error (.http 404 "Reservations not found") ∧
    get_completed_reservations st limit skip =
      .error (.http 404 "Reservations completed not found") ∧
    (∀ (st2 : DBState) (l : List ReservationRow),
      get_reservations st2 limit skip = .ok l → l ≠ []) ∧
    (∀ (st2 : DBState) (l : List CompletedRow),
      get_completed_reservations st2 limit skip = .ok l → l ≠ []) := by
  refine ⟨?_, ?_, ?_, ?_⟩
  · simp only [get_reservations]
    rw [if_pos h1]
  · simp only [get_completed_reservations]
    rw [if_pos h2]
  · intro st2 l heq
    simp only [get_reservations] at heq
    by_cases hc : (st2.reservations.drop skip).take limit = []
    · rw [if_pos hc] at heq
      exact Except.noConfusion heq
    · rw [if_neg hc] at heq
      injection heq with heq2
      intro hl
      exact hc (by rw [heq2, hl])
  · intro st2 l heq
    simp only [get_completed_reservations] at heq
    by_cases hc : (st2.reservations_completed.drop skip).take limit = []
    · rw [if_pos hc] at heq
      exact Except.noConfusion heq
    · rw [if_neg hc] at heq
      injection heq with heq2
      intro hl
      exact hc (by rw [heq2, hl])

/-- Witness for claim C10: on the empty store, both accessors return the 404
errors for the default page (limit 10, skip 0). -/
theorem paginated_reads_not_found_witness :
    get_reservations emptyDB 10 0 = .error (.http 404 "Reservations not found") ∧
    get_completed_reservations emptyDB 10 0 =
      .error (.http 404 "Reservations completed not found") := by
  have h := paginated_reads_not_found emptyDB 10 0 rfl rfl
  exact ⟨h.1, h.2.1⟩
